import Mathlib

/-!
Verification of the NFT Lifecycle Reconciliation Engine against its
specification.  The definitions below are a shallow embedding of the
TypeScript staking / burning / reconciliation services: pure functions become
Lean functions, and every external effect (RPC call, wallet signature,
database round trip) is passed in explicitly as data, so that each code path
is an inspectable, executable Lean term.

Conventions used throughout:
* JavaScript strings are Lean `String`s; `toLowerCase`, `trim`,
  `includes` are modelled char-by-char over `String.data` so that they
  evaluate inside the kernel.
* A fallible chain call is an `Except` value supplied by the environment:
  `Except.ok` is a resolved promise, `Except.error` a thrown exception whose
  message is carried as a `String` (the services branch on error messages).
* Database tables are lists of rows threaded through the functions as
  explicit state; a Supabase write that the service treats as infallible is
  modelled as a total list operation.
-/

/-! ## JavaScript string primitives -/

/-- Model of `c.toLowerCase()` for one character (ASCII, as the services only
compare ASCII contract addresses, rarity words and error messages). -/
def jsCharLower (c : Char) : Char := c.toLower

/-- Model of `c.toUpperCase()` for one character. -/
def jsCharUpper (c : Char) : Char := c.toUpper

/-- Model of `s.toLowerCase()`. -/
def jsToLower (s : String) : String := String.mk (s.data.map jsCharLower)

/-- Whitespace recognised by `String.prototype.trim`. -/
def isJsSpace (c : Char) : Bool := c == ' ' || c == '\t' || c == '\n' || c == '\r'

/-- Model of `s.trim()`. -/
def jsTrim (s : String) : String :=
  String.mk (((s.data.dropWhile isJsSpace).reverse.dropWhile isJsSpace).reverse)

/-- Helper for `jsIncludes`: does `pat` occur as a contiguous run of `s`? -/
def listContainsRun (pat : List Char) : List Char → Bool
  | [] => pat.isEmpty
  | c :: rest => pat.isPrefixOf (c :: rest) || listContainsRun pat rest

/-- Model of `s.includes(pat)`. -/
def jsIncludes (s pat : String) : Bool := listContainsRun pat.data s.data

/-- Model of `s.charAt(0).toUpperCase() + s.slice(1).toLowerCase()` — the
default branch of `normalizeRarity` (part_005 line 1136). -/
def capitalizeJs (s : String) : String :=
  match s.data with
  | [] => ""
  | c :: cs => String.mk (jsCharUpper c :: cs.map jsCharLower)

/-- Model of `s.charAt(0).toUpperCase() + s.slice(1)` — used for NFT display
names in `getResultNFTFromOffchainPool` (part_005 line 2677). -/
def capFirstJs (s : String) : String :=
  match s.data with
  | [] => ""
  | c :: cs => String.mk (jsCharUpper c :: cs)

/-! ## normalizeRarity (part_005 lines 1117-1138)

```ts
private normalizeRarity(rarity: string | null): string {
  if (!rarity) return "Common";
  const normalized = rarity.toLowerCase().trim();
  switch (normalized) {
    case "common": return "Common";
    ...
    case "epic": return "Legendary";
    case "ultra rare": return "Legendary";
    case "super rare": return "Rare";
    default:
      return rarity.charAt(0).toUpperCase() + rarity.slice(1).toLowerCase();
  }
}
```
`rarity` is `string | null`; the only falsy values of that type are `null`
and the empty string, both of which hit the early `return "Common"`. -/

def normalizeRarity (rarity : Option String) : String :=
  match rarity with
  | none => "Common"
  | some r =>
    if r = "" then "Common"
    else
      let normalized := jsTrim (jsToLower r)
      if normalized = "common" then "Common"
      else if normalized = "rare" then "Rare"
      else if normalized = "legendary" then "Legendary"
      else if normalized = "platinum" then "Platinum"
      else if normalized = "silver" then "Silver"
      else if normalized = "gold" then "Gold"
      else if normalized = "epic" then "Legendary"
      else if normalized = "ultra rare" then "Legendary"
      else if normalized = "super rare" then "Rare"
      else capitalizeJs r

/-- The switch labels of `normalizeRarity` that return a fixed literal. -/
def recognizedRarities : List String :=
  ["common", "rare", "legendary", "platinum", "silver", "gold",
   "epic", "ultra rare", "super rare"]

theorem capitalizeJs_ne_empty (r : String) (h : r ≠ "") : capitalizeJs r ≠ "" := by
  obtain ⟨d⟩ := r
  cases d with
  | nil => exact absurd rfl h
  | cons c cs =>
    intro hcontra
    have hd := congrArg String.data hcontra
    simp [capitalizeJs] at hd

/-! ## getStakeInfo (part_005 lines 1677-1706) and retryRPCCall (346-360)

`retryRPCCall` — despite its name and unused `maxRetries` parameter — makes a
single attempt on the read-only provider and rethrows any failure.
`getStakeInfo` calls the staking contract once and, in its `catch` block,
returns an empty staked list with zero pending rewards. -/

/-- Model of `retryRPCCall(operation, maxRetries)`: it awaits `operation`
once and rethrows on failure; `maxRetries` is never consulted. -/
def retryRPCCall {E A : Type} (operation : Except E A) (maxRetries : Nat) : Except E A :=
  match operation with
  | Except.ok a => Except.ok a
  | Except.error e => Except.error e

/-- Raw result of `stakingContract.methods.getStakeInfo(addr).call()` after
the `_tokensStaked || stakeInfo[0] || []` / `_rewards || stakeInfo[1] || "0"`
shape normalisation. -/
structure StakeInfoRaw where
  tokensStaked : List Nat
  rewards : String
deriving Repr, DecidableEq

/-- What the caller of `getStakeInfo` observes. -/
structure StakeInfoResult where
  stakedNFTs : List String
  pendingRewards : String
deriving Repr, DecidableEq

/-- Model of `getStakeInfo`: `fromWei` is the web3 wei-to-ether formatter
(external utility, passed as a parameter); `callRes` is the outcome of the
single contract read (initialization failures are folded into the error
case, as every throw lands in the same `catch`). -/
def getStakeInfo (fromWei : String → String) (callRes : Except String StakeInfoRaw) :
    StakeInfoResult :=
  match callRes with
  | Except.ok info =>
    { stakedNFTs := info.tokensStaked.map (fun t => toString t)
      pendingRewards := fromWei info.rewards }
  | Except.error _ => { stakedNFTs := [], pendingRewards := "0" }

/-- Claim C10: `normalizeRarity` is total and never yields an empty value:
null/empty input gives "Common"; "epic" and "ultra rare" (case-insensitive)
map to "Legendary" and "super rare" to "Rare"; any unrecognized rarity is
preserved with its first letter capitalized (and the rest lowercased, as the
code does) instead of being downgraded to "Common". -/
theorem normalizeRarity_total_and_mappings :
    (∀ r : Option String, normalizeRarity r ≠ "") ∧
    normalizeRarity none = "Common" ∧
    normalizeRarity (some "") = "Common" ∧
    normalizeRarity (some "epic") = "Legendary" ∧
    normalizeRarity (some "EPIC") = "Legendary" ∧
    normalizeRarity (some "Ultra Rare") = "Legendary" ∧
    normalizeRarity (some "super rare") = "Rare" ∧
    normalizeRarity (some "Super Rare") = "Rare" ∧
    (∀ r : String, r ≠ "" → jsTrim (jsToLower r) ∉ recognizedRarities →
      normalizeRarity (some r) = capitalizeJs r) ∧
    normalizeRarity (some "mythic") = "Mythic" ∧
    normalizeRarity (some "MYTHIC") = "Mythic" := by
  refine ⟨?_, by decide, by decide, by decide, by decide, by decide, by decide,
    by decide, ?_, by decide, by decide⟩
  · intro r
    cases r with
    | none => decide
    | some r =>
      simp only [normalizeRarity]
      split
      · decide
      · next h0 =>
        repeat' split
        all_goals first
          | decide
          | exact capitalizeJs_ne_empty r h0
  · intro r h0 hnotin
    simp [recognizedRarities] at hnotin
    obtain ⟨h1, h2, h3, h4, h5, h6, h7, h8, h9⟩ := hnotin
    simp only [normalizeRarity, if_neg h0, if_neg h1, if_neg h2, if_neg h3,
      if_neg h4, if_neg h5, if_neg h6, if_neg h7, if_neg h8, if_neg h9]

/-- Witness for claim C10: the unrecognized-rarity branch evaluated at the
concrete input "FooBar". -/
theorem normalizeRarity_total_and_mappings_witness :
    normalizeRarity (some "FooBar") = capitalizeJs "FooBar" :=
  normalizeRarity_total_and_mappings.2.2.2.2.2.2.2.2.1 "FooBar" (by decide) (by decide)

/-- Claim C5 counterexample: a failing chain read does NOT degrade to
"unknown" — `getStakeInfo` catches the error and returns an empty
staked-token list with zero rewards, observationally identical to a
successful read of a wallet with nothing staked. -/
theorem getStakeInfo_read_failure_looks_unstaked :
    getStakeInfo (fun s => s) (Except.error "network error") =
      { stakedNFTs := [], pendingRewards := "0" } ∧
    getStakeInfo (fun s => s) (Except.error "network error") =
      getStakeInfo (fun s => s) (Except.ok { tokensStaked := [], rewards := "0" }) :=
  ⟨rfl, rfl⟩

/-- Claim C5 amended: any failure of the single chain read (there are no
retries: `retryRPCCall` makes exactly one attempt whatever its bound
argument says) is surfaced as the definite negative result
`{ stakedNFTs := [], pendingRewards := "0" }`, not as "unknown". -/
theorem getStakeInfo_failure_defaults_empty (fromWei : String → String) (e : String)
    {E A : Type} (op : Except E A) (n m : Nat) :
    getStakeInfo fromWei (Except.error e) = { stakedNFTs := [], pendingRewards := "0" } ∧
    retryRPCCall op n = retryRPCCall op m ∧ retryRPCCall op n = op :=
  ⟨rfl, by cases op <;> rfl, by cases op <;> rfl⟩

/-! ## Optimistic View Cache — NFTContext (part_004 lines 150, 304-333, 384-422)

The React context keeps three pieces of state relevant here:
`allNFTs` (the cached view), `backupState` (the pre-mutation snapshot,
written by every optimistic mutation) and the `hasOptimisticUpdates` dirty
flag.  `optimisticStake` snapshots `[...allNFTs]` into `backupState`, maps
the staked fields over the view, and sets the dirty flag;
`updateNFTOptimistically` does the same with caller-supplied partial
updates; `revertOptimisticUpdate` restores the snapshot when it is
non-empty; `clearOptimisticUpdates` (the commit) just drops the snapshot. -/

/-- One cached NFT as the context tracks it. -/
structure ContextNFT where
  id : String
  rarity : String
  status : String
  isStaked : Bool
  stakingSource : String
  stakeTimestamp : Option Nat
  dailyReward : Rat
  lastUpdated : Option Nat
  optimisticUpdate : Bool
deriving Repr, DecidableEq

/-- The reward-rate table local to `optimisticStake`
(`rewards[rarity.toLowerCase()] || 0.1`). -/
def getDailyRewardForRarity (rarity : String) : Rat :=
  let l := jsToLower rarity
  if l = "common" then (1 : Rat) / 10
  else if l = "rare" then (4 : Rat) / 10
  else if l = "legendary" then 1
  else if l = "platinum" then (25 : Rat) / 10
  else if l = "silver" then 8
  else if l = "gold" then 30
  else (1 : Rat) / 10

/-- The slice of NFTContext state the optimistic-mutation API touches. -/
structure NFTContextState where
  allNFTs : List ContextNFT
  backupState : List ContextNFT
  hasOptimisticUpdates : Bool
deriving Repr, DecidableEq

/-- Model of `optimisticStake(nftIds, stakingSource)` (part_004 304-333);
`now` stands for `Date.now()`. -/
def optimisticStake (nftIds : List String) (stakingSource : String) (now : Nat)
    (st : NFTContextState) : NFTContextState :=
  { allNFTs := st.allNFTs.map (fun nft =>
      if nftIds.contains nft.id then
        { nft with
          isStaked := true
          stakingSource := stakingSource
          stakeTimestamp := some now
          dailyReward := getDailyRewardForRarity nft.rarity }
      else nft)
    backupState := st.allNFTs
    hasOptimisticUpdates := true }

/-- A `Partial<ContextNFT>` as passed to `updateNFTOptimistically`: `none`
means the field is absent from the update object. -/
structure NFTUpdates where
  status : Option String
  isStaked : Option Bool
  stakingSource : Option String
  stakeTimestamp : Option Nat
deriving Repr, DecidableEq

/-- Object spread `{ ...nft, ...updates, lastUpdated: Date.now(),
optimisticUpdate: true }`. -/
def applyNFTUpdates (u : NFTUpdates) (now : Nat) (nft : ContextNFT) : ContextNFT :=
  { nft with
    status := u.status.getD nft.status
    isStaked := u.isStaked.getD nft.isStaked
    stakingSource := u.stakingSource.getD nft.stakingSource
    stakeTimestamp := match u.stakeTimestamp with
      | some t => some t
      | none => nft.stakeTimestamp
    lastUpdated := some now
    optimisticUpdate := true }

/-- Model of `updateNFTOptimistically(nftId, updates)` (part_004 384-394). -/
def updateNFTOptimistically (nftId : String) (u : NFTUpdates) (now : Nat)
    (st : NFTContextState) : NFTContextState :=
  { allNFTs := st.allNFTs.map (fun nft =>
      if nft.id == nftId then applyNFTUpdates u now nft else nft)
    backupState := st.allNFTs
    hasOptimisticUpdates := true }

/-- Model of `revertOptimisticUpdate()` (part_004 409-416): restores the
snapshot only when one was saved. -/
def revertOptimisticUpdate (st : NFTContextState) : NFTContextState :=
  if st.backupState.length > 0 then
    { allNFTs := st.backupState, backupState := [], hasOptimisticUpdates := false }
  else st

/-- Model of `clearOptimisticUpdates()` (part_004 418-422), the commit. -/
def clearOptimisticUpdates (st : NFTContextState) : NFTContextState :=
  { st with backupState := [], hasOptimisticUpdates := false }

/-- Claim C7: applying an optimistic stake mutation and then reverting
restores the cached view exactly: the whole `allNFTs` list — and therefore
for every asset the status/store, stake status, staking source and stake
timestamp — equals its pre-mutation value. -/
theorem optimisticStake_then_revert_restores (st : NFTContextState)
    (nftIds : List String) (src : String) (now : Nat) :
    (revertOptimisticUpdate (optimisticStake nftIds src now st)).allNFTs = st.allNFTs := by
  simp only [optimisticStake, revertOptimisticUpdate]
  by_cases h : st.allNFTs = []
  · simp [h]
  · have hlen : 0 < st.allNFTs.length := List.length_pos.mpr h
    simp [hlen]

/-- A concrete cached asset used to exercise the double-mutation behaviour. -/
def nftA : ContextNFT :=
  { id := "a", rarity := "common", status := "offchain", isStaked := false,
    stakingSource := "none", stakeTimestamp := none, dailyReward := 0,
    lastUpdated := none, optimisticUpdate := false }

/-- Cache holding just `nftA`, clean, with no saved snapshot. -/
def cacheSt0 : NFTContextState :=
  { allNFTs := [nftA], backupState := [], hasOptimisticUpdates := false }

/-- State after a first (outstanding) optimistic stake of asset "a". -/
def cacheSt1 : NFTContextState := optimisticStake ["a"] "offchain" 100 cacheSt0

/-- State after a second optimistic mutation of the same asset "a" while the
first is still outstanding (neither committed nor reverted). -/
def cacheSt2 : NFTContextState :=
  updateNFTOptimistically "a"
    { status := none, isStaked := some false, stakingSource := some "none",
      stakeTimestamp := none } 200 cacheSt1

/-- Claim C4 counterexample: with one optimistic mutation outstanding on
asset "a", a second optimistic mutation of "a" is NOT rejected — there is no
`ErrMutationInFlight` path anywhere in NFTContext — it is applied to the
cached view and it overwrites the saved pre-mutation snapshot, so both the
view and the snapshot differ from their values before the second call. -/
theorem second_optimistic_mutation_is_applied :
    cacheSt2.allNFTs ≠ cacheSt1.allNFTs ∧
    cacheSt2.backupState ≠ cacheSt1.backupState ∧
    cacheSt2.hasOptimisticUpdates = true := by
  refine ⟨by decide, by decide, by decide⟩

/-- Claim C4 amended: a second optimistic mutation on an asset with an
outstanding mutation is applied, not rejected: the view receives the
partial updates, the snapshot is overwritten with the post-first-mutation
view, and a subsequent revert therefore restores only the state after the
first mutation, never the original. -/
theorem second_optimistic_mutation_overwrites_snapshot
    (st : NFTContextState) (nftIds : List String) (src : String) (now1 : Nat)
    (nftId : String) (u : NFTUpdates) (now2 : Nat) :
    (updateNFTOptimistically nftId u now2 (optimisticStake nftIds src now1 st)).allNFTs =
      (optimisticStake nftIds src now1 st).allNFTs.map
        (fun nft => if nft.id == nftId then applyNFTUpdates u now2 nft else nft) ∧
    (updateNFTOptimistically nftId u now2 (optimisticStake nftIds src now1 st)).backupState =
      (optimisticStake nftIds src now1 st).allNFTs ∧
    (revertOptimisticUpdate
        (updateNFTOptimistically nftId u now2 (optimisticStake nftIds src now1 st))).allNFTs =
      (optimisticStake nftIds src now1 st).allNFTs := by
  refine ⟨rfl, rfl, ?_⟩
  simp only [updateNFTOptimistically, revertOptimisticUpdate]
  by_cases h : (optimisticStake nftIds src now1 st).allNFTs = []
  · simp [h]
  · have hlen : 0 < (optimisticStake nftIds src now1 st).allNFTs.length :=
      List.length_pos.mpr h
    simp [hlen]

/-! ## Undecodable-success recovery in stakeNFTOnChain (part_005 866-931)

When the typed contract call throws, the handler first tests whether the
message is an ABI/parameter decode error (lines 874-876).  If so it runs two
strategies inside one `try`:
1. read the latest three blocks (`blockOffset` 0..2) and look for a
   transaction with `from` = user and `to` = staking contract;
2. if none was found, read `ownerOf(tokenId)` and report success when the
   token is now owned by the staking contract.
Any exception raised by the recovery reads re-throws the original contract
error, as does a non-decode error or a failed ownership check. -/

/-- One transaction of a block as returned by `getBlock(n, true)`. -/
structure ChainTx where
  txFrom : String
  txTo : String
  hash : String
deriving Repr, DecidableEq

/-- The decode-error guard of lines 874-876. -/
def decodeErrorDetected (msg : String) : Bool :=
  jsIncludes msg "Parameter decoding error" ||
  jsIncludes msg "ABI decoding" ||
  jsIncludes msg "decode"

/-- Strategy 1 (lines 883-900): walk the recent blocks in order; a failing
`getBlock` aborts the whole recovery `try`; otherwise return the first
matching `from`/`to` transaction hash, if any. -/
def scanRecentBlocks (userAccount stakingAddr : String)
    (blocks : List (Except String (List ChainTx))) : Except String (Option String) :=
  match blocks with
  | [] => Except.ok none
  | Except.error e :: _ => Except.error e
  | Except.ok txs :: rest =>
    match txs.find? (fun tx =>
        jsToLower tx.txFrom == jsToLower userAccount &&
        jsToLower tx.txTo == jsToLower stakingAddr) with
    | some tx => Except.ok (some tx.hash)
    | none => scanRecentBlocks userAccount stakingAddr rest

/-- Model of the `contractError` handler of lines 872-931: `blocks` are the
three `getBlock` results (latest first), `ownerOfRes` the `ownerOf` read of
strategy 2, `contractErrorMsg` the thrown message.  Returns the transaction
hash reported on success, or the re-thrown contract error. -/
def handleStakeDecodeError (userAccount stakingAddr : String)
    (blocks : List (Except String (List ChainTx)))
    (ownerOfRes : Except String String)
    (contractErrorMsg : String) : Except String String :=
  if decodeErrorDetected contractErrorMsg then
    match scanRecentBlocks userAccount stakingAddr blocks with
    | Except.error _ => Except.error contractErrorMsg
    | Except.ok (some h) => Except.ok h
    | Except.ok none =>
      match ownerOfRes with
      | Except.error _ => Except.error contractErrorMsg
      | Except.ok currentOwner =>
        if jsToLower currentOwner = jsToLower stakingAddr then
          Except.ok "success_via_ownership_check"
        else Except.error contractErrorMsg
  else Except.error contractErrorMsg

/-- Handler-level behaviour (lines 872-931 in isolation): the decode-error
handler itself resolves exactly when (1) the recent-blocks scan finds a
`from`/`to` matching transaction, or (2) the scan completes empty and the
subsequent `ownerOf` read shows the token now owned by the staking
contract.  NOTE: this is NOT the outcome the caller reports — the handler
feeds its hash into the receipt wait of line 956, and the strategy-2
placeholder hash then breaks the operation; see
`ownership_confirmed_stake_reported_failed` below. -/
theorem stake_decode_recovery_success_iff
    (user staking msg : String) (blocks : List (Except String (List ChainTx)))
    (ownerOfRes : Except String String)
    (hdec : decodeErrorDetected msg = true) :
    (handleStakeDecodeError user staking blocks ownerOfRes msg).isOk = true ↔
      ((∃ h, scanRecentBlocks user staking blocks = Except.ok (some h)) ∨
       (scanRecentBlocks user staking blocks = Except.ok none ∧
        ∃ o, ownerOfRes = Except.ok o ∧ jsToLower o = jsToLower staking)) := by
  simp only [handleStakeDecodeError, hdec, if_true]
  cases hscan : scanRecentBlocks user staking blocks with
  | error e => simp [Except.isOk, Except.toBool]
  | ok o =>
    cases o with
    | some h => simp [Except.isOk, Except.toBool]
    | none =>
      cases hown : ownerOfRes with
      | error e => simp [Except.isOk, Except.toBool]
      | ok owner =>
        by_cases hcmp : jsToLower owner = jsToLower staking
        · simp [hcmp, Except.isOk, Except.toBool]
        · simp [hcmp, Except.isOk, Except.toBool]

/-- Concrete instance of the handler-level behaviour: a decode error whose
recovery scan finds the user-to-staking-contract transaction in the latest
block resolves with that hash. -/
theorem stake_decode_recovery_success_iff_witness :
    (handleStakeDecodeError "0xAA" "0xSC"
      [Except.ok [{ txFrom := "0xaa", txTo := "0xsc", hash := "0xfeed" }]]
      (Except.error "rpc down") "Parameter decoding error").isOk = true :=
  (stake_decode_recovery_success_iff "0xAA" "0xSC" "Parameter decoding error"
      [Except.ok [{ txFrom := "0xaa", txTo := "0xsc", hash := "0xfeed" }]]
      (Except.error "rpc down") (by decide)).mpr
    (Or.inl ⟨"0xfeed", rfl⟩)

/-! ## checkAndHandleApproval (part_005 lines 156-279)

Control flow of the source, kept branch for branch:
* lines 161-183 — validation: `ownerOf` via `retryRPCCall`; any throw
  (including the ownership-mismatch throw of line 177) is caught and
  re-thrown as a `Contract validation failed` error;
* lines 185-275 — a `while (attempt < maxRetries)` loop (`maxRetries = 3`):
  - blanket check `isApprovedForAll`: `ok true` returns success; a thrown
    error whose message includes `Internal JSON-RPC error` returns success
    immediately (lines 204-208) without consulting the individual check;
  - individual check `getApproved`: a match with the staking contract
    returns success (line 221); a throw is swallowed (line 223);
  - line 228: `if (!isApprovedForAll && !isIndividuallyApproved) return
    true` — both flags are necessarily false at this point, so every
    remaining iteration path returns success here, and the automatic
    approval submission of lines 239-273 (including the user-rejection and
    retry handling) is unreachable;
  - line 278 — loop exhausted: return false.
The 2s/3s backoff waits are timing only and carry no state. -/

/-- The chain/wallet environment `checkAndHandleApproval` consults. -/
structure ApprovalEnv where
  ownerOfRes : Except String String
  isApprovedForAllRes : Except String Bool
  getApprovedRes : Except String String
  performAutomaticApprovalRes : Except String Bool
deriving Repr

/-- Lines 211-273: the part of one loop iteration after the blanket check
fell through with `isApprovedForAll = false`; `onRetry` is the value of
re-entering the loop with one fewer attempt. -/
def approvalIterationTail (env : ApprovalEnv) (stakingAddr : String)
    (isApprovedForAll : Bool) (onRetry : Except String Bool) : Except String Bool :=
  let isIndividuallyApproved : Bool :=
    match retryRPCCall env.getApprovedRes 2 with
    | Except.ok approvedAddress => jsToLower approvedAddress == jsToLower stakingAddr
    | Except.error _ => false
  if isIndividuallyApproved then Except.ok true
  else if !isApprovedForAll && !isIndividuallyApproved then Except.ok true
  else
    match env.performAutomaticApprovalRes with
    | Except.ok true => Except.ok true
    | Except.ok false => onRetry
    | Except.error e =>
      if jsIncludes e "User denied" || jsIncludes e "rejected" then Except.ok false
      else if jsIncludes e "already approved" then Except.ok true
      else onRetry

/-- Lines 185-278: the retry loop, with the attempt budget as fuel. -/
def checkAndHandleApprovalLoop (env : ApprovalEnv) (stakingAddr : String) :
    Nat → Except String Bool
  | 0 => Except.ok false
  | fuel + 1 =>
    match retryRPCCall env.isApprovedForAllRes 2 with
    | Except.ok true => Except.ok true
    | Except.ok false =>
      approvalIterationTail env stakingAddr false
        (checkAndHandleApprovalLoop env stakingAddr fuel)
    | Except.error e =>
      if jsIncludes e "Internal JSON-RPC error" then Except.ok true
      else
        approvalIterationTail env stakingAddr false
          (checkAndHandleApprovalLoop env stakingAddr fuel)

/-- Model of `checkAndHandleApproval(walletAddress, tokenId)`; the staking
contract address is passed explicitly instead of read from config. -/
def checkAndHandleApproval (env : ApprovalEnv) (walletAddress stakingAddr : String) :
    Except String Bool :=
  match retryRPCCall env.ownerOfRes 2 with
  | Except.error e => Except.error ("Contract validation failed: " ++ e)
  | Except.ok owner =>
    if jsToLower owner = jsToLower walletAddress then
      checkAndHandleApprovalLoop env stakingAddr 3
    else Except.error "Contract validation failed: token owned by another wallet"

/-- Approval environment in which both checks succeed and confirmably report
NOT approved, and in which a real approval attempt would be rejected by the
user. -/
def envBothChecksNegative : ApprovalEnv :=
  { ownerOfRes := Except.ok "0xaa"
    isApprovedForAllRes := Except.ok false
    getApprovedRes := Except.ok "0xbeef"
    performAutomaticApprovalRes := Except.error "User denied transaction signature" }

/-- Claim C6 counterexample: both approval checks are perfectly confirmable
— the RPC succeeds and reports no blanket and no individual approval — and
the user would reject any approval signature, yet `checkAndHandleApproval`
returns success without ever submitting an approval: the success-on-
unconfirmable fallback is not guarded by an RPC failure, so the
"if and only if both checks are unconfirmable due to RPC failure" part of
the claim (and the terminal-failure-on-user-rejection part) is false. -/
theorem approval_confirmed_negative_still_succeeds :
    envBothChecksNegative.isApprovedForAllRes = Except.ok false ∧
    envBothChecksNegative.getApprovedRes = Except.ok "0xbeef" ∧
    jsToLower "0xbeef" ≠ jsToLower "0xsc" ∧
    checkAndHandleApproval envBothChecksNegative "0xAA" "0xsc" = Except.ok true := by
  refine ⟨rfl, rfl, by decide, rfl⟩

theorem approvalIterationTail_not_blanket (env : ApprovalEnv) (stakingAddr : String)
    (onRetry : Except String Bool) :
    approvalIterationTail env stakingAddr false onRetry = Except.ok true := by
  unfold approvalIterationTail
  cases hg : env.getApprovedRes with
  | error e => simp [retryRPCCall]
  | ok approvedAddress =>
    cases hb : (jsToLower approvedAddress == jsToLower stakingAddr) <;>
      simp [retryRPCCall, hb]

/-- Claim C6 amended: once the ownership validation passes, the routine
checks blanket approval first and individual approval second, but it ends in
success in EVERY case: confirmed approval returns success, an
`Internal JSON-RPC error` on the blanket check returns success without
consulting the individual check, and both checks reporting not-approved —
whether confirmably or through RPC failure — also returns success ("skip
approval and proceed"); the approval-submission retry path (3 attempts,
2-3s backoff) and the terminal user-rejection path are dead code. -/
theorem checkAndHandleApproval_always_succeeds (env : ApprovalEnv)
    (wallet stakingAddr owner : String)
    (hown : env.ownerOfRes = Except.ok owner)
    (hmatch : jsToLower owner = jsToLower wallet) :
    checkAndHandleApproval env wallet stakingAddr = Except.ok true := by
  unfold checkAndHandleApproval
  rw [hown]
  simp only [retryRPCCall, if_pos hmatch]
  show checkAndHandleApprovalLoop env stakingAddr 3 = Except.ok true
  unfold checkAndHandleApprovalLoop
  cases hb : env.isApprovedForAllRes with
  | error e =>
    simp only [retryRPCCall]
    by_cases hrpc : jsIncludes e "Internal JSON-RPC error" = true
    · simp [hrpc]
    · simp [hrpc, approvalIterationTail_not_blanket]
  | ok b =>
    cases b with
    | true => simp [retryRPCCall]
    | false => simp [retryRPCCall, approvalIterationTail_not_blanket]

/-- Witness for the amended claim C6: a wallet owning the token, with an
RPC-failing blanket check and a confirmable negative individual check,
gets a success. -/
theorem checkAndHandleApproval_always_succeeds_witness :
    checkAndHandleApproval
      { ownerOfRes := Except.ok "0xAb"
        isApprovedForAllRes := Except.error "connection reset"
        getApprovedRes := Except.ok "0x0000"
        performAutomaticApprovalRes := Except.ok false }
      "0xAB" "0xsc" = Except.ok true :=
  checkAndHandleApproval_always_succeeds
    { ownerOfRes := Except.ok "0xAb"
      isApprovedForAllRes := Except.error "connection reset"
      getApprovedRes := Except.ok "0x0000"
      performAutomaticApprovalRes := Except.ok false }
    "0xAB" "0xsc" "0xAb" rfl (by decide)

/-! ## Burn Rule Engine — EnhancedHybridBurnService (part_005 2404-2812)

`analyzeNFTSelection` groups the selected NFTs by lower-cased rarity (object
key insertion order preserved), derives the burn strategy from whether the
selection has off-chain and/or on-chain members, and picks the first burn
rule whose `minRarity`/`requiredAmount` matches some group.
`executeSmartHybridBurn` then runs the strategy: on-chain burns first, then
off-chain row deletion, then pool allocation, then one audit row.  Burn
rules and the pure-offchain delegate live in `optimizedCIDPoolBurnService`
(outside this tree) and are passed in as parameters, as are the IPFS
gateway, the `uuidv4()` fresh id and the `toISOString()` clock. -/

/-- The `status` union (offchain or onchain) of `NFTWithStatus`. -/
inductive NFTStoreStatus
  | offchain
  | onchain
deriving Repr, DecidableEq, BEq

/-- The selection entries handed to the burn engine. -/
structure NFTWithStatus where
  id : String
  tokenId : Option String
  rarity : String
  status : NFTStoreStatus
  stakingStatus : Option String
  isStaked : Option Bool
deriving Repr, DecidableEq

/-- One rarity bucket of the analysis. -/
structure BurnGroup where
  offchainNFTs : List NFTWithStatus
  onchainNFTs : List NFTWithStatus
  rarity : String
  totalCount : Nat
deriving Repr, DecidableEq

/-- `resultingNFT` field of a burn rule. -/
structure ResultingNFT where
  rarity : String
deriving Repr, DecidableEq

/-- A static burn/crafting rule. -/
structure BurnRule where
  minRarity : String
  requiredAmount : Nat
  resultingNFT : ResultingNFT
deriving Repr, DecidableEq

inductive BurnStrategy
  | pure_offchain
  | pure_onchain
  | mixed
deriving Repr, DecidableEq

/-- The `nfts.forEach` accumulation into `rarityGroups` (lines 2418-2435):
append to an existing bucket for the lower-cased rarity or create one. -/
def addNFTToGroups (groups : List BurnGroup) (nft : NFTWithStatus) : List BurnGroup :=
  let r := jsToLower nft.rarity
  if groups.any (fun g => g.rarity == r) then
    groups.map (fun g =>
      if g.rarity == r then
        match nft.status with
        | NFTStoreStatus.offchain =>
          { g with offchainNFTs := g.offchainNFTs ++ [nft], totalCount := g.totalCount + 1 }
        | NFTStoreStatus.onchain =>
          { g with onchainNFTs := g.onchainNFTs ++ [nft], totalCount := g.totalCount + 1 }
      else g)
  else
    groups ++ [match nft.status with
      | NFTStoreStatus.offchain =>
        { offchainNFTs := [nft], onchainNFTs := [], rarity := r, totalCount := 1 }
      | NFTStoreStatus.onchain =>
        { offchainNFTs := [], onchainNFTs := [nft], rarity := r, totalCount := 1 }]

structure SelectionAnalysis where
  burnGroups : List BurnGroup
  burnStrategy : BurnStrategy
  isValid : Bool
  applicableRule : Option BurnRule
deriving Repr, DecidableEq

/-- Model of `analyzeNFTSelection(nfts)` (lines 2407-2482); `burnRules`
stands for `optimizedCIDPoolBurnService.getBurnRules()`. -/
def analyzeNFTSelection (burnRules : List BurnRule) (nfts : List NFTWithStatus) :
    SelectionAnalysis :=
  let burnGroups := nfts.foldl addNFTToGroups []
  let hasOffchain := nfts.any (fun n => n.status == NFTStoreStatus.offchain)
  let hasOnchain := nfts.any (fun n => n.status == NFTStoreStatus.onchain)
  let burnStrategy :=
    if hasOffchain && hasOnchain then BurnStrategy.mixed
    else if hasOnchain && !hasOffchain then BurnStrategy.pure_onchain
    else BurnStrategy.pure_offchain
  let applicableRule := (burnGroups.filterMap (fun g =>
      burnRules.find? (fun r =>
        jsToLower r.minRarity == g.rarity && r.requiredAmount == g.totalCount))).head?
  { burnGroups := burnGroups
    burnStrategy := burnStrategy
    isValid := applicableRule.isSome
    applicableRule := applicableRule }

/-- Decimal value of a digit list. -/
def digitsToNat (ds : List Char) : Nat :=
  ds.foldl (fun acc c => acc * 10 + (c.toNat - 48)) 0

/-- Model of JS `parseInt` on the token-id strings the service uses:
the leading decimal digits, `none` for `NaN`. -/
def jsParseInt (s : String) : Option Nat :=
  let ds := s.data.takeWhile Char.isDigit
  if ds.isEmpty then none else some (digitsToNat ds)

/-- Model of `burnOnchainNFTs(onchainNFTs)` (lines 2575-2623): sequentially
transfer each token to the burn address, collecting hashes; a staked NFT or
a throwing transfer (gas estimation included) aborts the batch with that
error.  `transferToBurn` is the chain write oracle. -/
def burnOnchainNFTs (transferToBurn : Option Nat → Except String String) :
    List NFTWithStatus → Except String (List String)
  | [] => Except.ok []
  | nft :: rest =>
    if jsIncludes nft.id "staked_" || nft.stakingStatus == some "staked" ||
        nft.isStaked == some true then
      Except.error "NFT is currently staked and cannot be burned. Please unstake it first."
    else
      match transferToBurn (jsParseInt (nft.tokenId.getD nft.id)) with
      | Except.error e => Except.error e
      | Except.ok h =>
        match burnOnchainNFTs transferToBurn rest with
        | Except.error e => Except.error e
        | Except.ok hs => Except.ok (h :: hs)

/-- Row of `nft_cid_distribution_log` (the off-chain asset store). -/
structure DistRow where
  nft_id : String
  wallet_address : String
  rarity : String
  cid : String
  distributed_at : String
deriving Repr, DecidableEq

/-- Row of `nft_cid_pools` (the pre-seeded burn-result pool). -/
structure PoolRow where
  id : String
  rarity : String
  cid : String
  metadata_cid : String
  image_url : Option String
  is_distributed : Bool
  distributed_at : Option String
  distributed_to_wallet : Option String
deriving Repr, DecidableEq

/-- Row of `burn_transactions` (the audit log); display-only columns
(gas, network, metadata json) are omitted. -/
structure BurnTxRow where
  wallet_address : String
  burned_nft_ids : List String
  result_rarity : String
  burn_type : String
  transaction_hash : Option String
deriving Repr, DecidableEq

/-- The three Supabase tables the burn engine touches. -/
structure BurnDB where
  distributionLog : List DistRow
  pools : List PoolRow
  burnTransactions : List BurnTxRow
deriving Repr, DecidableEq

/-- The result NFT handed back to the UI. -/
structure NFTData where
  id : String
  name : String
  image : String
  rarity : String
  wallet_address : String
  ipfs_hash : String
  metadata_uri : String
deriving Repr, DecidableEq

/-- `{success, resultNFT?|error?}` of the burn entry points. -/
structure BurnResult where
  success : Bool
  resultNFT : Option NFTData
  error : Option String
deriving Repr, DecidableEq

/-- The pool read of lines 2662-2668: first row with the (lower-cased)
rarity and `is_distributed = false`. -/
def poolSelect (pools : List PoolRow) (rarity : String) : Option PoolRow :=
  pools.find? (fun p => p.rarity == jsToLower rarity && p.is_distributed == false)

/-- The pool write of lines 2717-2725: update keyed ONLY by `id` — there is
no `is_distributed = false` condition on the update. -/
def poolMarkDistributed (pools : List PoolRow) (entryId walletAddress nowIso : String) :
    List PoolRow :=
  pools.map (fun p =>
    if p.id == entryId then
      { p with
        is_distributed := true
        distributed_at := some nowIso
        distributed_to_wallet := some (jsToLower walletAddress) }
    else p)

/-- Model of `getResultNFTFromOffchainPool(walletAddress, rarity)`
(lines 2654-2738): select a pool row, build the result NFT, insert it into
the user collection, then mark the pool row distributed.  `ipfsGateway`
models `getIPFSUrl` (external config), `freshId` the `uuidv4()` call and
`nowIso` the `toISOString()` clock. -/
def getResultNFTFromOffchainPool (ipfsGateway walletAddress rarity freshId nowIso : String)
    (db : BurnDB) : Except String (NFTData × BurnDB) :=
  match poolSelect db.pools rarity with
  | none => Except.error ("No available " ++ rarity ++ " NFT found in CID pool")
  | some cidPoolNFT =>
    let resultNFT : NFTData :=
      { id := freshId
        name := "NEFTIT " ++ capFirstJs rarity ++ " NFT"
        image := match cidPoolNFT.image_url with
          | some u => if u = "" then ipfsGateway ++ cidPoolNFT.cid else u
          | none => ipfsGateway ++ cidPoolNFT.cid
        rarity := rarity
        wallet_address := walletAddress
        ipfs_hash := cidPoolNFT.cid
        metadata_uri := ipfsGateway ++ cidPoolNFT.metadata_cid }
    let db1 : BurnDB :=
      { db with distributionLog := db.distributionLog ++
          [{ nft_id := freshId
             wallet_address := jsToLower walletAddress
             rarity := resultNFT.rarity
             cid := resultNFT.ipfs_hash
             distributed_at := nowIso }] }
    let db2 : BurnDB :=
      { db1 with pools := poolMarkDistributed db1.pools cidPoolNFT.id walletAddress nowIso }
    Except.ok (resultNFT, db2)

/-- Model of `burnOffchainNFTsInDatabase(walletAddress, nftIds)`
(lines 2628-2649): delete the selected rows of the caller wallet. -/
def burnOffchainNFTsInDatabase (walletAddress : String) (nftIds : List String)
    (db : BurnDB) : BurnDB :=
  { db with distributionLog := db.distributionLog.filter (fun row =>
      !(row.wallet_address == jsToLower walletAddress && nftIds.contains row.nft_id)) }

/-- Model of `logHybridBurnTransaction` (lines 2751-2789): insert exactly
one audit row. -/
def logHybridBurnTransaction (walletAddress : String) (burnedNFTs : List NFTWithStatus)
    (resultRarity burnType : String) (hash : Option String) (db : BurnDB) : BurnDB :=
  { db with burnTransactions := db.burnTransactions ++
      [{ wallet_address := jsToLower walletAddress
         burned_nft_ids := burnedNFTs.map (fun n => n.id)
         result_rarity := resultRarity
         burn_type := burnType
         transaction_hash := hash }] }

/-- Model of `executeSmartHybridBurn(walletAddress, nfts)` (lines 2487-2570).
`pureOffchainBurn` is the `optimizedCIDPoolBurnService.burnNFTsOffChain`
delegate (outside this tree).  Every thrown error lands in the surrounding
`catch` and is returned as `{success:false}` with the database as it was at
the throw. -/
def executeSmartHybridBurn
    (burnRules : List BurnRule)
    (transferToBurn : Option Nat → Except String String)
    (pureOffchainBurn : BurnDB → List String → BurnResult × BurnDB)
    (ipfsGateway freshId nowIso : String)
    (walletAddress : String) (nfts : List NFTWithStatus) (db : BurnDB) :
    BurnResult × BurnDB :=
  let analysis := analyzeNFTSelection burnRules nfts
  match analysis.applicableRule with
  | none =>
    ({ success := false, resultNFT := none,
       error := some "Invalid NFT combination for burning" }, db)
  | some applicableRule =>
    match analysis.burnStrategy with
    | BurnStrategy.pure_offchain =>
      pureOffchainBurn db (nfts.map (fun n => n.id))
    | BurnStrategy.pure_onchain =>
      match burnOnchainNFTs transferToBurn
          (nfts.filter (fun n => n.status == NFTStoreStatus.onchain)) with
      | Except.error e => ({ success := false, resultNFT := none, error := some e }, db)
      | Except.ok onchainBurnHashes =>
        match getResultNFTFromOffchainPool ipfsGateway walletAddress
            applicableRule.resultingNFT.rarity freshId nowIso db with
        | Except.error e => ({ success := false, resultNFT := none, error := some e }, db)
        | Except.ok (resultNFT, db1) =>
          let db2 := logHybridBurnTransaction walletAddress nfts
            applicableRule.resultingNFT.rarity "onchain" onchainBurnHashes.head? db1
          ({ success := true, resultNFT := some resultNFT, error := none }, db2)
    | BurnStrategy.mixed =>
      let onchainNFTs := nfts.filter (fun n => n.status == NFTStoreStatus.onchain)
      match (if onchainNFTs.length > 0
             then burnOnchainNFTs transferToBurn onchainNFTs
             else Except.ok []) with
      | Except.error e => ({ success := false, resultNFT := none, error := some e }, db)
      | Except.ok onchainBurnHashes =>
        let offchainNFTs := nfts.filter (fun n => n.status == NFTStoreStatus.offchain)
        let db1 := if offchainNFTs.length > 0
          then burnOffchainNFTsInDatabase walletAddress (offchainNFTs.map (fun n => n.id)) db
          else db
        match getResultNFTFromOffchainPool ipfsGateway walletAddress
            applicableRule.resultingNFT.rarity freshId nowIso db1 with
        | Except.error e => ({ success := false, resultNFT := none, error := some e }, db1)
        | Except.ok (resultNFT, db2) =>
          let db3 := logHybridBurnTransaction walletAddress nfts
            applicableRule.resultingNFT.rarity "hybrid" onchainBurnHashes.head? db2
          ({ success := true, resultNFT := some resultNFT, error := none }, db3)

theorem pure_offchain_strategy_no_onchain (burnRules : List BurnRule)
    (nfts : List NFTWithStatus)
    (h : (analyzeNFTSelection burnRules nfts).burnStrategy = BurnStrategy.pure_offchain) :
    nfts.filter (fun n => n.status == NFTStoreStatus.onchain) = [] := by
  by_cases hon : nfts.any (fun n => n.status == NFTStoreStatus.onchain) = true
  · exfalso
    simp only [analyzeNFTSelection] at h
    by_cases hoff : nfts.any (fun n => n.status == NFTStoreStatus.offchain) = true
    · simp [hon, hoff] at h
    · simp [hon, hoff] at h
  · rw [List.filter_eq_nil_iff]
    intro a ha hc
    exact hon (List.any_eq_true.mpr ⟨a, ha, hc⟩)

/-- Claim C2: whenever the on-chain transfer-to-burn step of a burn throws
(for any selected on-chain token), the burn returns failure with the
database untouched: no pool entry is marked distributed, no off-chain row
is deleted, and no audit row is written. -/
theorem burn_onchain_failure_preserves_offchain_and_pool
    (burnRules : List BurnRule)
    (transferToBurn : Option Nat → Except String String)
    (pureOffchainBurn : BurnDB → List String → BurnResult × BurnDB)
    (ipfsGateway freshId nowIso walletAddress : String)
    (nfts : List NFTWithStatus) (db : BurnDB) (e : String)
    (hfail : burnOnchainNFTs transferToBurn
        (nfts.filter (fun n => n.status == NFTStoreStatus.onchain)) = Except.error e) :
    (executeSmartHybridBurn burnRules transferToBurn pureOffchainBurn ipfsGateway freshId
        nowIso walletAddress nfts db).1.success = false ∧
    (executeSmartHybridBurn burnRules transferToBurn pureOffchainBurn ipfsGateway freshId
        nowIso walletAddress nfts db).2.distributionLog = db.distributionLog ∧
    (executeSmartHybridBurn burnRules transferToBurn pureOffchainBurn ipfsGateway freshId
        nowIso walletAddress nfts db).2.pools = db.pools ∧
    (executeSmartHybridBurn burnRules transferToBurn pureOffchainBurn ipfsGateway freshId
        nowIso walletAddress nfts db).2.burnTransactions = db.burnTransactions := by
  simp only [executeSmartHybridBurn]
  cases hrule : (analyzeNFTSelection burnRules nfts).applicableRule with
  | none => exact ⟨rfl, rfl, rfl, rfl⟩
  | some applicableRule =>
    cases hstrat : (analyzeNFTSelection burnRules nfts).burnStrategy with
    | pure_offchain =>
      exfalso
      rw [pure_offchain_strategy_no_onchain burnRules nfts hstrat] at hfail
      simp [burnOnchainNFTs] at hfail
    | pure_onchain =>
      rw [hfail]
      exact ⟨rfl, rfl, rfl, rfl⟩
    | mixed =>
      by_cases hlen : (nfts.filter (fun n => n.status == NFTStoreStatus.onchain)).length > 0
      · rw [if_pos hlen, hfail]
        exact ⟨rfl, rfl, rfl, rfl⟩
      · exfalso
        have hnil : nfts.filter (fun n => n.status == NFTStoreStatus.onchain) = [] :=
          List.eq_nil_of_length_eq_zero (Nat.eq_zero_of_not_pos hlen)
        rw [hnil] at hfail
        simp [burnOnchainNFTs] at hfail

/-- Witness for claim C2: one valid on-chain common NFT whose burn transfer
reverts leaves the single off-chain row, the pool and the audit log exactly
as they were, and reports failure. -/
theorem burn_onchain_failure_preserves_offchain_and_pool_witness :
    (executeSmartHybridBurn
      [{ minRarity := "common", requiredAmount := 1, resultingNFT := { rarity := "rare" } }]
      (fun _ => Except.error "execution reverted")
      (fun db _ => ({ success := false, resultNFT := none, error := some "n/a" }, db))
      "ipfs://" "fresh" "t1" "0xW"
      [{ id := "on9", tokenId := some "9", rarity := "common",
         status := NFTStoreStatus.onchain, stakingStatus := none, isStaked := none }]
      { distributionLog := [{ nft_id := "keep", wallet_address := "0xw", rarity := "rare",
                              cid := "k", distributed_at := "t0" }]
        pools := [{ id := "p1", rarity := "rare", cid := "c", metadata_cid := "m",
                    image_url := none, is_distributed := false, distributed_at := none,
                    distributed_to_wallet := none }]
        burnTransactions := [] }).1.success = false ∧
    (executeSmartHybridBurn
      [{ minRarity := "common", requiredAmount := 1, resultingNFT := { rarity := "rare" } }]
      (fun _ => Except.error "execution reverted")
      (fun db _ => ({ success := false, resultNFT := none, error := some "n/a" }, db))
      "ipfs://" "fresh" "t1" "0xW"
      [{ id := "on9", tokenId := some "9", rarity := "common",
         status := NFTStoreStatus.onchain, stakingStatus := none, isStaked := none }]
      { distributionLog := [{ nft_id := "keep", wallet_address := "0xw", rarity := "rare",
                              cid := "k", distributed_at := "t0" }]
        pools := [{ id := "p1", rarity := "rare", cid := "c", metadata_cid := "m",
                    image_url := none, is_distributed := false, distributed_at := none,
                    distributed_to_wallet := none }]
        burnTransactions := [] }).2 =
      { distributionLog := [{ nft_id := "keep", wallet_address := "0xw", rarity := "rare",
                              cid := "k", distributed_at := "t0" }]
        pools := [{ id := "p1", rarity := "rare", cid := "c", metadata_cid := "m",
                    image_url := none, is_distributed := false, distributed_at := none,
                    distributed_to_wallet := none }]
        burnTransactions := [] } := by
  have h := burn_onchain_failure_preserves_offchain_and_pool
    [{ minRarity := "common", requiredAmount := 1, resultingNFT := { rarity := "rare" } }]
    (fun _ => Except.error "execution reverted")
    (fun db _ => ({ success := false, resultNFT := none, error := some "n/a" }, db))
    "ipfs://" "fresh" "t1" "0xW"
    [{ id := "on9", tokenId := some "9", rarity := "common",
       status := NFTStoreStatus.onchain, stakingStatus := none, isStaked := none }]
    { distributionLog := [{ nft_id := "keep", wallet_address := "0xw", rarity := "rare",
                            cid := "k", distributed_at := "t0" }]
      pools := [{ id := "p1", rarity := "rare", cid := "c", metadata_cid := "m",
                  image_url := none, is_distributed := false, distributed_at := none,
                  distributed_to_wallet := none }]
      burnTransactions := [] }
    "execution reverted" rfl
  exact ⟨h.1, rfl⟩

/-! ## Scenario of §8: three commons (2 off-chain, 1 on-chain) under the
rule common ×3 → rare. -/

/-- The burn-rule table holding the scenario rule. -/
def c8Rules : List BurnRule :=
  [{ minRarity := "common", requiredAmount := 3, resultingNFT := { rarity := "rare" } }]

/-- The selection: two off-chain commons and one on-chain common. -/
def c8NFTs : List NFTWithStatus :=
  [{ id := "off1", tokenId := none, rarity := "common",
     status := NFTStoreStatus.offchain, stakingStatus := none, isStaked := none },
   { id := "off2", tokenId := none, rarity := "common",
     status := NFTStoreStatus.offchain, stakingStatus := none, isStaked := none },
   { id := "on3", tokenId := some "7", rarity := "common",
     status := NFTStoreStatus.onchain, stakingStatus := some "unstaked",
     isStaked := some false }]

/-- Chain oracle: burning token 7 succeeds with a known hash. -/
def c8TransferOracle : Option Nat → Except String String := fun t =>
  match t with
  | some 7 => Except.ok "0xburn7"
  | _ => Except.error "unexpected token"

/-- Database before the burn: the two off-chain rows of wallet `0xw` and one
undistributed rare pool entry. -/
def c8DB : BurnDB :=
  { distributionLog :=
      [{ nft_id := "off1", wallet_address := "0xw", rarity := "common",
         cid := "c1", distributed_at := "t0" },
       { nft_id := "off2", wallet_address := "0xw", rarity := "common",
         cid := "c2", distributed_at := "t0" }]
    pools :=
      [{ id := "p1", rarity := "rare", cid := "cidR", metadata_cid := "mR",
         image_url := none, is_distributed := false, distributed_at := none,
         distributed_to_wallet := none }]
    burnTransactions := [] }

/-- Pure-offchain delegate; unreachable for this mixed selection. -/
def c8Delegate : BurnDB → List String → BurnResult × BurnDB := fun db _ =>
  ({ success := false, resultNFT := none, error := some "not used here" }, db)

/-- The scenario execution. -/
def c8Run : BurnResult × BurnDB :=
  executeSmartHybridBurn c8Rules c8TransferOracle c8Delegate "ipfs://" "res1" "t1"
    "0xW" c8NFTs c8DB

/-- Claim C8: selecting 3 commons (2 off-chain, 1 on-chain) under the rule
common ×3 → rare classifies as `mixed`, burns the on-chain token, deletes
both off-chain rows, allocates exactly the one pooled rare asset (now
marked distributed to the wallet), and writes exactly one audit row with
`burn_type = "hybrid"` carrying the burn transaction hash. -/
theorem mixed_hybrid_burn_scenario :
    (analyzeNFTSelection c8Rules c8NFTs).burnStrategy = BurnStrategy.mixed ∧
    (analyzeNFTSelection c8Rules c8NFTs).isValid = true ∧
    c8Run.1.success = true ∧
    c8Run.2.distributionLog =
      [{ nft_id := "res1", wallet_address := "0xw", rarity := "rare",
         cid := "cidR", distributed_at := "t1" }] ∧
    c8Run.2.pools =
      [{ id := "p1", rarity := "rare", cid := "cidR", metadata_cid := "mR",
         image_url := none, is_distributed := true, distributed_at := some "t1",
         distributed_to_wallet := some "0xw" }] ∧
    c8Run.2.burnTransactions =
      [{ wallet_address := "0xw", burned_nft_ids := ["off1", "off2", "on3"],
         result_rarity := "rare", burn_type := "hybrid",
         transaction_hash := some "0xburn7" }] := by
  refine ⟨by decide, by decide, by decide, by decide, by decide, by decide⟩

/-! ## Concurrency model of the pool allocation (claim about §4.5 step 3)

`getResultNFTFromOffchainPool` interacts with `nft_cid_pools` in two
separate round trips: `poolSelect` (a plain read of the first undistributed
row of the rarity) and `poolMarkDistributed` (an update keyed only by row
id, with no `is_distributed = false` condition).  Two burns racing for the
pool are modelled as processes that each perform these two steps, with the
database ops interleaved by an arbitrary schedule; the intermediate
`nft_cid_distribution_log` insert does not touch the pool table and is
irrelevant to allocation. -/

/-- How far the allocation of one burn has progressed. -/
inductive AllocPhase
  | start
  | selected (entryId : String)
  | done (entryId : String)
  | failed
deriving Repr, DecidableEq

/-- One pending burn wanting a pooled asset of `rarity` for `wallet`. -/
structure AllocProc where
  wallet : String
  rarity : String
  phase : AllocPhase
deriving Repr, DecidableEq

/-- Pool table plus the racing burns. -/
structure AllocSystem where
  pools : List PoolRow
  procs : List AllocProc
deriving Repr, DecidableEq

/-- Run one database round trip of process `i`: its select if it has not
selected yet, otherwise its unconditional update. -/
def allocStep (nowIso : String) (sys : AllocSystem) (i : Nat) : AllocSystem :=
  match sys.procs.get? i with
  | none => sys
  | some proc =>
    match proc.phase with
    | AllocPhase.start =>
      match poolSelect sys.pools proc.rarity with
      | none => { sys with procs := sys.procs.set i { proc with phase := AllocPhase.failed } }
      | some p =>
        { sys with procs := sys.procs.set i { proc with phase := AllocPhase.selected p.id } }
    | AllocPhase.selected entryId =>
      { pools := poolMarkDistributed sys.pools entryId proc.wallet nowIso
        procs := sys.procs.set i { proc with phase := AllocPhase.done entryId } }
    | AllocPhase.done _ => sys
    | AllocPhase.failed => sys

/-- Run a schedule of process indices. -/
def allocRun (nowIso : String) (sys : AllocSystem) : List Nat → AllocSystem
  | [] => sys
  | i :: rest => allocRun nowIso (allocStep nowIso sys i) rest

/-- Two burns racing for a pool of exactly two undistributed rare entries. -/
def raceInit : AllocSystem :=
  { pools :=
      [{ id := "p1", rarity := "rare", cid := "c1", metadata_cid := "m1",
         image_url := none, is_distributed := false, distributed_at := none,
         distributed_to_wallet := none },
       { id := "p2", rarity := "rare", cid := "c2", metadata_cid := "m2",
         image_url := none, is_distributed := false, distributed_at := none,
         distributed_to_wallet := none }]
    procs :=
      [{ wallet := "0xw1", rarity := "rare", phase := AllocPhase.start },
       { wallet := "0xw2", rarity := "rare", phase := AllocPhase.start }] }

/-- Claim C3 counterexample: with N = 2 concurrent burns against a pool of
exactly 2 undistributed rare entries, the interleaving
select₀, select₁, update₀, update₁ makes BOTH burns claim entry `p1`
(the select has no lock and the update has no `is_distributed` condition),
so only 1 pool entry — not 2 — ends distributed and one entry is allocated
to two burns: the allocation is not an atomic claim-exactly-once update. -/
theorem pool_allocation_race_double_allocates :
    ((allocRun "t" raceInit [0, 1, 0, 1]).pools.filter
        (fun p => p.is_distributed)).length = 1 ∧
    (allocRun "t" raceInit [0, 1, 0, 1]).procs.map (fun pr => pr.phase) =
      [AllocPhase.done "p1", AllocPhase.done "p1"] := by
  refine ⟨by decide, by decide⟩

/-- Claim C3 amended: the pool allocation is a plain first-undistributed
select followed by an update keyed only by the row id (no conditional
`is_distributed` guard), so serialized burns do claim distinct entries —
the serial schedule distributes both entries to the two burns distinctly —
but the update overwrites even an already-distributed entry, which is what
lets interleaved burns double-allocate. -/
theorem pool_allocation_serial_distinct_but_update_unconditional :
    (((allocRun "t" raceInit [0, 0, 1, 1]).pools.filter
        (fun p => p.is_distributed)).length = 2 ∧
     (allocRun "t" raceInit [0, 0, 1, 1]).procs.map (fun pr => pr.phase) =
       [AllocPhase.done "p1", AllocPhase.done "p2"]) ∧
    poolMarkDistributed
      [{ id := "p1", rarity := "rare", cid := "c1", metadata_cid := "m1",
         image_url := none, is_distributed := true, distributed_at := some "t1",
         distributed_to_wallet := some "0xw1" }] "p1" "0xW2" "t2" =
      [{ id := "p1", rarity := "rare", cid := "c1", metadata_cid := "m1",
         image_url := none, is_distributed := true, distributed_at := some "t2",
         distributed_to_wallet := some "0xw2" }] := by
  refine ⟨⟨by decide, by decide⟩, by decide⟩

/-! ## Unstake reconciliation (part_005 1425-1468, invoked at line 1614)

After a confirmed on-chain unstake, `unstakeNFTOnChain` calls
`updateOffchainStakingRecord(wallet, tokenId, "unstaked")` (the comment at
line 1613 reads: do not delete, keep history).  That function walks the
candidate record ids
`[onchain_<t>, blockchain_<t>, <t>, <t>]` and calls
`offChainStakingService.unstakeNFT` on each until one reports success. -/

/-- A durable staking ledger row (`StakeRecord` of the spec data model). -/
structure StakeRecord where
  nftRef : String
  walletAddress : String
  rarity : String
  dailyReward : Rat
  stakedAt : Nat
  unstakedAt : Option Nat
  source : String
deriving Repr, DecidableEq

/-- The row key used by the status update: wallet (stored lower-cased),
record id, and the record being still live. -/
def stakeRecordMatches (walletAddress nftId : String) (r : StakeRecord) : Bool :=
  r.walletAddress == jsToLower walletAddress && r.nftRef == nftId &&
    r.unstakedAt == none

/-- Modelled from the spec: the body of `offChainStakingService.unstakeNFT`
is not part of this source tree (only its caller
`updateOffchainStakingRecord` is).  Per §4.4, `reconcileUnstake` "marks the
`StakeRecord.unstakedAt`, never deletes"; success reports whether a live
record matched the key. -/
def unstakeNFT (records : List StakeRecord) (walletAddress nftId : String)
    (now : Nat) : Bool × List StakeRecord :=
  (records.any (stakeRecordMatches walletAddress nftId),
   records.map (fun r =>
     if stakeRecordMatches walletAddress nftId r
     then { r with unstakedAt := some now } else r))

/-- Lines 1430-1435: the candidate id formats (the last two coincide because
`tokenId` is already a string). -/
def possibleIds (tokenId : String) : List String :=
  ["onchain_" ++ tokenId, "blockchain_" ++ tokenId, tokenId, tokenId]

/-- Lines 1438-1459: try each candidate id, stopping at the first
successful update. -/
def tryUnstakeIds (walletAddress : String) (now : Nat) :
    List StakeRecord → List String → List StakeRecord
  | records, [] => records
  | records, cand :: rest =>
    if (unstakeNFT records walletAddress cand now).1 then
      (unstakeNFT records walletAddress cand now).2
    else tryUnstakeIds walletAddress now (unstakeNFT records walletAddress cand now).2 rest

/-- Model of `updateOffchainStakingRecord(walletAddress, tokenId, status)`;
the "staked" branch is explicitly not implemented in the source and
leaves the ledger unchanged. -/
def updateOffchainStakingRecord (walletAddress tokenId statusTarget : String)
    (now : Nat) (records : List StakeRecord) : List StakeRecord :=
  if statusTarget = "unstaked" then
    tryUnstakeIds walletAddress now records (possibleIds tokenId)
  else records

/-- Claim C9: the post-unstake reconciliation updates the existing record to
unstaked and never deletes: the ledger keeps its length, every record
survives with rarity, reward, staked-at and source intact (only the
unstake-status field can change), and the targeted (wallet, asset) record
still exists with its original `stakedAt` and `unstakedAt` now set. -/
theorem reconcile_unstake_updates_never_deletes
    (records : List StakeRecord) (wallet tokenId : String) (now : Nat)
    (r : StakeRecord) (hr : r ∈ records)
    (hw : r.walletAddress = jsToLower wallet)
    (hid : r.nftRef = "onchain_" ++ tokenId)
    (hlive : r.unstakedAt = none) :
    (updateOffchainStakingRecord wallet tokenId "unstaked" now records).length =
      records.length ∧
    (∀ s ∈ records,
      ∃ s2 ∈ updateOffchainStakingRecord wallet tokenId "unstaked" now records,
        s2.nftRef = s.nftRef ∧ s2.walletAddress = s.walletAddress ∧
        s2.rarity = s.rarity ∧ s2.dailyReward = s.dailyReward ∧
        s2.stakedAt = s.stakedAt ∧ s2.source = s.source) ∧
    (∃ s2 ∈ updateOffchainStakingRecord wallet tokenId "unstaked" now records,
      s2.nftRef = "onchain_" ++ tokenId ∧ s2.walletAddress = jsToLower wallet ∧
      s2.stakedAt = r.stakedAt ∧ s2.unstakedAt = some now) := by
  have hmatch : stakeRecordMatches wallet ("onchain_" ++ tokenId) r = true := by
    simp [stakeRecordMatches, hw, hid, hlive]
  have hany : records.any (stakeRecordMatches wallet ("onchain_" ++ tokenId)) = true :=
    List.any_eq_true.mpr ⟨r, hr, hmatch⟩
  have hout : updateOffchainStakingRecord wallet tokenId "unstaked" now records =
      records.map (fun s =>
        if stakeRecordMatches wallet ("onchain_" ++ tokenId) s
        then { s with unstakedAt := some now } else s) := by
    simp [updateOffchainStakingRecord, possibleIds, tryUnstakeIds, unstakeNFT, hany]
  refine ⟨?_, ?_, ?_⟩
  · rw [hout]
    exact List.length_map records _
  · intro s hs
    refine ⟨if stakeRecordMatches wallet ("onchain_" ++ tokenId) s
        then { s with unstakedAt := some now } else s, ?_, ?_⟩
    · rw [hout]
      exact List.mem_map.mpr ⟨s, hs, rfl⟩
    · cases hms : stakeRecordMatches wallet ("onchain_" ++ tokenId) s <;> simp [hms]
  · refine ⟨{ r with unstakedAt := some now }, ?_, hid, hw, rfl, rfl⟩
    rw [hout]
    exact List.mem_map.mpr ⟨r, hr, by simp [hmatch]⟩

/-- The concrete ledger row used in the claim C9 witness. -/
def c9Rec : StakeRecord :=
  { nftRef := "onchain_7", walletAddress := "0xw", rarity := "Common",
    dailyReward := 1, stakedAt := 50, unstakedAt := none, source := "onchain" }

/-- Witness for claim C9: unstake reconciliation of token 7 for wallet
`0xW` on a one-row ledger. -/
theorem reconcile_unstake_updates_never_deletes_witness :
    (updateOffchainStakingRecord "0xW" "7" "unstaked" 500 [c9Rec]).length =
      [c9Rec].length ∧
    (∀ s ∈ [c9Rec],
      ∃ s2 ∈ updateOffchainStakingRecord "0xW" "7" "unstaked" 500 [c9Rec],
        s2.nftRef = s.nftRef ∧ s2.walletAddress = s.walletAddress ∧
        s2.rarity = s.rarity ∧ s2.dailyReward = s.dailyReward ∧
        s2.stakedAt = s.stakedAt ∧ s2.source = s.source) ∧
    (∃ s2 ∈ updateOffchainStakingRecord "0xW" "7" "unstaked" 500 [c9Rec],
      s2.nftRef = "onchain_" ++ "7" ∧ s2.walletAddress = jsToLower "0xW" ∧
      s2.stakedAt = c9Rec.stakedAt ∧ s2.unstakedAt = some 500) :=
  reconcile_unstake_updates_never_deletes [c9Rec] "0xW" "7" 500 c9Rec
    (List.mem_singleton.mpr rfl) (by decide) rfl rfl

/-! ## The decode-recovery result fed through the receipt wait
(part_005 lines 951-978 and 2130-2158)

After the attempt loop resolves, `stakeNFTOnChain` continues with
`const txHash = result.transactionHash` (line 951) and
`await this.waitForTransactionReceiptSafe(txHash, 60000)` (line 956); a
receipt with a falsy or `"0x0"` status throws (lines 958-978), and every
throw reaches the outer catch, which rethrows `Onchain staking failed: ...`
(line 1077) — the operation is reported to the caller as a failure.
`waitForTransactionReceiptSafe` (lines 2130-2158) polls
`getTransactionReceipt(txHash)` every 2 seconds until it returns a receipt,
and throws a receipt timeout once the 60s window closes; a poll that throws
behaves like a null receipt (wait and retry).  The chain is modelled as a
fixed receipt store `getReceipt` during the wait, and the poll budget
(timeout / poll interval) as fuel.  The strategy-2 placeholder
`success_via_ownership_check` is not a transaction hash, so no chain ever
has a receipt under that key. -/

/-- A transaction receipt as the service reads it; `status` is `none` for a
missing/falsy status field. -/
structure TxReceipt where
  transactionHash : String
  status : Option String
deriving Repr, DecidableEq

/-- Line 958: `!receipt.status || receipt.status === "0x0"` fails the
transaction. -/
def receiptStatusOk (status : Option String) : Bool :=
  match status with
  | none => false
  | some s => !(s == "") && !(s == "0x0")

/-- Model of `waitForTransactionReceiptSafe(txHash, timeoutMs)`
(lines 2130-2158): poll until a receipt appears or the budget runs out. -/
def waitForTransactionReceiptSafe (getReceipt : String → Option TxReceipt)
    (txHash : String) : Nat → Except String TxReceipt
  | 0 => Except.error ("Transaction receipt timeout for tx: " ++ txHash)
  | fuel + 1 =>
    match getReceipt txHash with
    | some receipt => Except.ok receipt
    | none => waitForTransactionReceiptSafe getReceipt txHash fuel

/-- Model of the final-attempt tail of `stakeNFTOnChain` once the typed
contract call threw and the decode-error handler ran (lines 872-931
composed with 951-978): the resolved hash goes through the receipt wait,
a bad or missing receipt throws, and every throw lands in the outer catch
of line 1048, which reports `Onchain staking failed`.  A successful receipt
leads to the success return of lines 980-1046 (database recording failures
there only warn). -/
def stakeNFTOnChainAfterDecodeError (userAccount stakingAddr : String)
    (blocks : List (Except String (List ChainTx)))
    (ownerOfRes : Except String String) (contractErrorMsg : String)
    (getReceipt : String → Option TxReceipt) (pollBudget : Nat) :
    Except String TxReceipt :=
  match handleStakeDecodeError userAccount stakingAddr blocks ownerOfRes
      contractErrorMsg with
  | Except.error e => Except.error ("Onchain staking failed: " ++ e)
  | Except.ok txHash =>
    match waitForTransactionReceiptSafe getReceipt txHash pollBudget with
    | Except.error e => Except.error ("Onchain staking failed: " ++ e)
    | Except.ok receipt =>
      if receiptStatusOk receipt.status then Except.ok receipt
      else
        Except.error
          "Onchain staking failed: Transaction failed on blockchain"

/-- A chain view holding a mined, successful receipt for the real
transaction `0xfeed` and — like every real chain — no receipt under the
placeholder string. -/
def c1GetReceipt : String → Option TxReceipt := fun h =>
  if h == "0xfeed" then some { transactionHash := "0xfeed", status := some "0x1" }
  else none

/-- Three recent blocks containing no transaction of the user. -/
def c1EmptyBlocks : List (Except String (List ChainTx)) :=
  [Except.ok [], Except.ok [], Except.ok []]

/-- Three recent blocks whose latest holds the user-to-staking-contract
transaction `0xfeed`. -/
def c1FoundBlocks : List (Except String (List ChainTx)) :=
  [Except.ok [{ txFrom := "0xaa", txTo := "0xsc", hash := "0xfeed" }],
   Except.ok [], Except.ok []]

/-- Claim C1 (code bug): at the failing input — a decode error, a recent-
blocks scan that finds nothing, and an `ownerOf` read that DOES show the
token now owned by the staking contract — the handler resolves with the
placeholder `success_via_ownership_check` (the code logs "transaction was
successful"), but that placeholder is not a transaction hash, the receipt
wait of line 956 times out on it, and the operation is reported as
`Onchain staking failed`: the claimed case (2) success report is broken by
the code.  By contrast, case (1) — the scan finding the real transaction
`0xfeed` — survives the receipt wait and is reported as a success. -/
theorem ownership_confirmed_stake_reported_failed :
    handleStakeDecodeError "0xAA" "0xSC" c1EmptyBlocks (Except.ok "0xsc")
      "Parameter decoding error" = Except.ok "success_via_ownership_check" ∧
    c1GetReceipt "success_via_ownership_check" = none ∧
    stakeNFTOnChainAfterDecodeError "0xAA" "0xSC" c1EmptyBlocks (Except.ok "0xsc")
      "Parameter decoding error" c1GetReceipt 30 =
      Except.error
        "Onchain staking failed: Transaction receipt timeout for tx: success_via_ownership_check" ∧
    stakeNFTOnChainAfterDecodeError "0xAA" "0xSC" c1FoundBlocks (Except.ok "0xsc")
      "Parameter decoding error" c1GetReceipt 30 =
      Except.ok { transactionHash := "0xfeed", status := some "0x1" } := by
  refine ⟨rfl, rfl, rfl, rfl⟩
